import Mathlib

/-!
Shallow embedding of `netmiko_executor.py` (repository `busticketing`).

The program drives a batch of commands against one network device:
`execute_netmiko_commands` opens a session, classifies each command as a
configuration command or a read-only command, dispatches it, optionally
saves the configuration, closes the session, and always returns a result
record; `validate_device_config` checks a device descriptor; `main` wires
the two together and chooses the process exit code.

The device session provider (the Netmiko library) is modelled as a record
of oracles, each returning `Except NetErr String`; Python exceptions raised
by the provider become `Except.error` values and the `try/except` structure
of the source becomes explicit branching.  Every provider invocation is
recorded in an event trace so that claims about which operations run (and
how often) are statable.  File I/O details are abstracted: loading the JSON
request file is an oracle (`ConfigLoad`), the optional output file write is
modelled as infallible, timestamps are a parameter.
-/

namespace NetmikoExec

/-- Character-list prefix test, mirroring Python `str.startswith`. -/
def startswith_chars : List Char → List Char → Bool
  | [], _ => true
  | _ :: _, [] => false
  | p :: ps, s :: ss => if p = s then startswith_chars ps ss else false

/-- Python `s.startswith(p)`. -/
def startswith (s p : String) : Bool :=
  startswith_chars p.data s.data

/-- Python `str.strip()`: remove leading and trailing whitespace. -/
def strTrim (s : String) : String :=
  String.mk (((s.data.dropWhile Char.isWhitespace).reverse.dropWhile Char.isWhitespace).reverse)

/-- Python truthiness of `command.strip()`: the trimmed string is empty. -/
def isBlank (c : String) : Bool :=
  (strTrim c).data.isEmpty

/-- Python `"\n".join(lines)`. -/
def joinLines : List String → String
  | [] => ""
  | [l] => l
  | l :: ls => l ++ "\n" ++ joinLines ls

/-- The fixed separator line `"-" * 50`. -/
def separator : String :=
  String.mk (List.replicate 50 (Char.ofNat 45))

/-- Faults the session provider can raise: `NetMikoAuthenticationException`,
`NetMikoTimeoutException`, or any other `Exception`, each carrying `str(e)`. -/
inductive NetErr where
  | authErr (detail : String)
  | timeoutErr (detail : String)
  | otherErr (detail : String)
deriving DecidableEq

/-- The message the orchestrator's handlers produce for each fault kind. -/
def errMessage : NetErr → String
  | NetErr.authErr d => "Authentication failed: " ++ d
  | NetErr.timeoutErr d => "Connection timeout: " ++ d
  | NetErr.otherErr d => "Device connection error: " ++ d

/-- A device descriptor as a JSON object: each required key is present or
absent.  Extra transport parameters are passed through opaquely by the
source and do not affect the modelled logic. -/
structure DeviceConfig where
  device_type : Option String
  host : Option String
  username : Option String
  password : Option String
deriving DecidableEq

/-- The parsed request document: each top-level key present or absent. -/
structure RequestConfig where
  device : Option DeviceConfig
  commands : Option (List String)
  test_only : Option Bool
deriving DecidableEq

/-- Outcome of opening and JSON-parsing the request file: missing file
(with the path and `str(e)`), malformed JSON (with `str(e)`), any other
load-time fault, or a parsed document. -/
inductive ConfigLoad where
  | fileMissing (path detail : String)
  | jsonInvalid (detail : String)
  | loadFault (detail : String)
  | loaded (cfg : RequestConfig)
deriving DecidableEq

/-- The result record the program constructs; `device_host` is `none` on
the paths where the source builds a fresh `error_result` without that key. -/
structure ExecResult where
  success : Bool
  message : String
  output : String
  timestamp : String
  device_host : Option String
deriving DecidableEq

/-- The device session provider (Netmiko) as a fault-injecting oracle:
`connect` models `ConnectHandler(**device_config)`, the rest model the
corresponding methods of the live connection. -/
structure Netmiko where
  connect : Except NetErr Unit
  send_command : String → Except NetErr String
  send_config_set : List String → Except NetErr String
  save_config : Except NetErr String
  disconnect : Except NetErr Unit

/-- Observable provider invocations, in order. -/
inductive Event where
  | sentCommand (c : String)
  | sentConfigSet (cs : List String)
  | savedConfig
  | disconnected
deriving DecidableEq

/-- The empty descriptor `config.get('device', \x7b\x7d)` falls back to. -/
def empty_device : DeviceConfig :=
  { device_type := none, host := none, username := none, password := none }

/-- The supported device types, in source order. -/
def supported_types : List String :=
  ["cisco_ios", "cisco_xe", "cisco_nxos", "cisco_asa",
   "arista_eos", "juniper_junos", "hp_comware", "huawei",
   "fortinet", "paloalto_panos", "linux"]

/-- Translation of `validate_device_config`: check the four required fields
in order, then membership of `device_type` in the supported set. -/
def validate_device_config (d : DeviceConfig) : Bool × String :=
  match d.device_type with
  | none => (false, "Missing required field: device_type")
  | some dt =>
    match d.host with
    | none => (false, "Missing required field: host")
    | some _ =>
      match d.username with
      | none => (false, "Missing required field: username")
      | some _ =>
        match d.password with
        | none => (false, "Missing required field: password")
        | some _ =>
          if supported_types.contains dt then (true, "")
          else (false, "Unsupported device type: " ++ dt)

/-- The inline classifier of the source:
`command.strip().startswith('configure') or command.strip().startswith('config')`. -/
def is_config_command (c : String) : Bool :=
  startswith (strTrim c) "configure" || startswith (strTrim c) "config"

/-- The provider invocation a non-blank command produces: a one-element
configuration batch for configuration commands, a direct command otherwise. -/
def dispatch_event (c : String) : Event :=
  if is_config_command c then Event.sentConfigSet [c] else Event.sentCommand c

/-- The command loop of the orchestrator: skip blank commands, dispatch the
rest through the matching channel, and accumulate the output block
(`Command: <c>`, the response, a separator line) per command.  A dispatch
fault aborts the loop; the lines accumulated so far are discarded, exactly
as the source never assigns `result['output']` on that path. -/
def run_commands (net : Netmiko) : List String → Except NetErr (List String) × List Event
  | [] => (Except.ok [], [])
  | c :: rest =>
    if isBlank c then run_commands net rest
    else
      match (if is_config_command c then net.send_config_set [c] else net.send_command c) with
      | Except.error e => (Except.error e, [dispatch_event c])
      | Except.ok out =>
        match run_commands net rest with
        | (Except.error e, evs) => (Except.error e, dispatch_event c :: evs)
        | (Except.ok lines, evs) =>
          (Except.ok (("Command: " ++ c) :: out :: separator :: lines), dispatch_event c :: evs)

/-- The session phase of the orchestrator (the inner `try` of the source):
open the session; on the test-only path or after the command loop and the
conditional save, mark success and disconnect.  Each `except` handler only
overwrites `message`, leaving `success` and `output` as they stood when the
fault was raised — including after `result['success'] = True`. -/
def run_session (dev : DeviceConfig) (cmds : List String) (testOnly : Bool)
    (net : Netmiko) (ts : String) : ExecResult × List Event :=
  match net.connect with
  | Except.error e =>
    ({ success := false, message := errMessage e, output := "",
       timestamp := ts, device_host := some (dev.host.getD "unknown") }, [])
  | Except.ok _ =>
    if testOnly then
      match net.disconnect with
      | Except.ok _ =>
        ({ success := true, message := "Connection test successful",
           output := "Connection established successfully",
           timestamp := ts, device_host := some (dev.host.getD "unknown") },
         [Event.disconnected])
      | Except.error e =>
        ({ success := true, message := errMessage e,
           output := "Connection established successfully",
           timestamp := ts, device_host := some (dev.host.getD "unknown") },
         [Event.disconnected])
    else
      match run_commands net cmds with
      | (Except.error e, evs) =>
        ({ success := false, message := errMessage e, output := "",
           timestamp := ts, device_host := some (dev.host.getD "unknown") }, evs)
      | (Except.ok lines, evs) =>
        if cmds.any is_config_command then
          match net.save_config with
          | Except.error e =>
            ({ success := false, message := errMessage e, output := "",
               timestamp := ts, device_host := some (dev.host.getD "unknown") },
             evs ++ [Event.savedConfig])
          | Except.ok sv =>
            match net.disconnect with
            | Except.ok _ =>
              ({ success := true,
                 message := "Successfully executed " ++ toString cmds.length ++ " commands",
                 output := joinLines (lines ++ ["Configuration saved:", sv]),
                 timestamp := ts, device_host := some (dev.host.getD "unknown") },
               evs ++ [Event.savedConfig, Event.disconnected])
            | Except.error e =>
              ({ success := true, message := errMessage e,
                 output := joinLines (lines ++ ["Configuration saved:", sv]),
                 timestamp := ts, device_host := some (dev.host.getD "unknown") },
               evs ++ [Event.savedConfig, Event.disconnected])
        else
          match net.disconnect with
          | Except.ok _ =>
            ({ success := true,
               message := "Successfully executed " ++ toString cmds.length ++ " commands",
               output := joinLines lines,
               timestamp := ts, device_host := some (dev.host.getD "unknown") },
             evs ++ [Event.disconnected])
          | Except.error e =>
            ({ success := true, message := errMessage e,
               output := joinLines lines,
               timestamp := ts, device_host := some (dev.host.getD "unknown") },
             evs ++ [Event.disconnected])

/-- Message of a Python `KeyError` for key `k`: the key in single quotes. -/
def keyErr (k : String) : String :=
  "\x27" ++ k ++ "\x27"

/-- The `error_result` the outer generic handler of the orchestrator builds. -/
def unexpected (d ts : String) : ExecResult :=
  { success := false, message := "Unexpected error: " ++ d, output := "",
    timestamp := ts, device_host := none }

/-- Translation of `execute_netmiko_commands`: load the request document,
extract `device` and `commands` (a missing key raises `KeyError`, caught by
the outer generic handler, as is a missing `host` read by the pre-connect
log line), then run the session phase.  The outer handlers map a missing
file, malformed JSON and any other load fault to their fixed messages.
Totality of this definition is the source guarantee that the function never
propagates an exception.  The write of the optional output file is modelled
as infallible; timestamps are the parameter `ts`. -/
def execute_netmiko_commands (load : ConfigLoad) (net : Netmiko) (ts : String) :
    ExecResult × List Event :=
  match load with
  | ConfigLoad.fileMissing path _ =>
    ({ success := false, message := "Configuration file not found: " ++ path,
       output := "", timestamp := ts, device_host := none }, [])
  | ConfigLoad.jsonInvalid d =>
    ({ success := false, message := "Invalid JSON in configuration file: " ++ d,
       output := "", timestamp := ts, device_host := none }, [])
  | ConfigLoad.loadFault d => (unexpected d ts, [])
  | ConfigLoad.loaded cfg =>
    match cfg.device with
    | none => (unexpected (keyErr "device") ts, [])
    | some dev =>
      match cfg.commands with
      | none => (unexpected (keyErr "commands") ts, [])
      | some cmds =>
        match dev.host with
        | none => (unexpected (keyErr "host") ts, [])
        | some _ => run_session dev cmds (cfg.test_only.getD false) net ts

/-- The `error_result` of the top-level driver's generic handler. -/
def scriptErr (d ts : String) : ExecResult :=
  { success := false, message := "Script execution error: " ++ d, output := "",
    timestamp := ts, device_host := none }

/-- Translation of `main`: `hasArg = false` is the missing-argument path
(usage text, exit 1, no result document).  Otherwise load the request file
(any load fault reaches the driver's generic handler), validate
`config.get('device', {})`, and on success run the orchestrator, exiting
with 0 exactly when the result's `success` is true.  The returned pair is
the exit code and the result documents printed to stdout, in order. -/
def main (hasArg : Bool) (load : ConfigLoad) (net : Netmiko) (ts : String) :
    Nat × List ExecResult :=
  if hasArg then
    match load with
    | ConfigLoad.fileMissing _ d => (1, [scriptErr d ts])
    | ConfigLoad.jsonInvalid d => (1, [scriptErr d ts])
    | ConfigLoad.loadFault d => (1, [scriptErr d ts])
    | ConfigLoad.loaded cfg =>
      match validate_device_config (cfg.device.getD empty_device) with
      | (false, msg) =>
        (1, [{ success := false, message := "Invalid device configuration: " ++ msg,
               output := "", timestamp := ts, device_host := none }])
      | (true, _) =>
        (if (execute_netmiko_commands load net ts).1.success then 0 else 1,
         [(execute_netmiko_commands load net ts).1])
  else (1, [])

/-- Messages produced by the three session-fault handlers. -/
def isSessionErrMsg (m : String) : Bool :=
  startswith m "Authentication failed:" || startswith m "Connection timeout:" ||
  startswith m "Device connection error:"

/-- Messages produced by any failure handler of the program. -/
def failure_message (m : String) : Bool :=
  startswith m "Configuration file not found:" ||
  startswith m "Invalid JSON in configuration file:" ||
  startswith m "Unexpected error:" ||
  isSessionErrMsg m

/-- The two success-path messages of the orchestrator. -/
def success_message (m : String) : Bool :=
  (m == "Connection test successful") || startswith m "Successfully executed"

/-- Number of session-close invocations in a trace. -/
def close_count : List Event → Nat
  | [] => 0
  | Event.disconnected :: r => close_count r + 1
  | _ :: r => close_count r

/-- Number of command dispatches (direct or configuration batch) in a trace. -/
def dispatch_count : List Event → Nat
  | [] => 0
  | Event.sentCommand _ :: r => dispatch_count r + 1
  | Event.sentConfigSet _ :: r => dispatch_count r + 1
  | _ :: r => dispatch_count r

/-- The output-log lines a fault-free run produces, recomputed from the
command list directly: blank commands contribute nothing, each non-blank
command contributes its three-line block, with responses given by the
provider response functions `f` (direct commands) and `g` (configuration
batches). -/
def expected_lines (f : String → String) (g : List String → String) : List String → List String
  | [] => []
  | c :: rest =>
    if isBlank c then expected_lines f g rest
    else ("Command: " ++ c) :: (if is_config_command c then g [c] else f c) ::
      separator :: expected_lines f g rest

/-- A well-formed device descriptor used by concrete test runs. -/
def dev_ok : DeviceConfig :=
  { device_type := some "cisco_ios", host := some "192.0.2.1",
    username := some "admin", password := some "pw" }

/-- Response of the fault-free provider to a direct command. -/
def f_resp (c : String) : String := "RESPONSE " ++ c

/-- Response of the fault-free provider to a configuration batch. -/
def g_resp (l : List String) : String := "CFGRESP " ++ joinLines l

/-- A provider on which every operation succeeds. -/
def net_ok : Netmiko :=
  { connect := Except.ok (),
    send_command := fun c => Except.ok (f_resp c),
    send_config_set := fun l => Except.ok (g_resp l),
    save_config := Except.ok "SAVED",
    disconnect := Except.ok () }

/-- A provider whose dispatch of any command other than `show version`
raises a generic exception: the mid-batch-failure scenario. -/
def net_c2 : Netmiko :=
  { connect := Except.ok (),
    send_command := fun c =>
      if c = "show version" then Except.ok "Cisco IOS 15.2"
      else Except.error (NetErr.otherErr "dispatch failed"),
    send_config_set := fun l => Except.ok (g_resp l),
    save_config := Except.ok "SAVED",
    disconnect := Except.ok () }

/-- A provider on which everything succeeds except closing the session. -/
def net_closefail : Netmiko :=
  { connect := Except.ok (),
    send_command := fun c => Except.ok (f_resp c),
    send_config_set := fun l => Except.ok (g_resp l),
    save_config := Except.ok "SAVED",
    disconnect := Except.error (NetErr.otherErr "close failed") }

/-- A provider whose session open fails with an authentication fault. -/
def net_connfail : Netmiko :=
  { connect := Except.error (NetErr.authErr "bad credentials"),
    send_command := fun c => Except.ok (f_resp c),
    send_config_set := fun l => Except.ok (g_resp l),
    save_config := Except.ok "SAVED",
    disconnect := Except.ok () }

/-- A request document with one read-only command. -/
def load_show : ConfigLoad :=
  ConfigLoad.loaded
    { device := some dev_ok, commands := some ["show version"], test_only := some false }

/-- Extending the scanned list on the right preserves a character-prefix match. -/
theorem startswith_chars_append (p a b : List Char) (h : startswith_chars p a = true) :
    startswith_chars p (a ++ b) = true := by
  induction p generalizing a with
  | nil => rfl
  | cons x ps ih =>
    cases a with
    | nil => simp [startswith_chars] at h
    | cons y ys =>
      simp only [List.cons_append]
      unfold startswith_chars at h ⊢
      by_cases hxy : x = y
      · rw [if_pos hxy] at h ⊢
        exact ih ys h
      · rw [if_neg hxy] at h
        exact absurd h (by simp)

/-- String append acts as list append on the underlying character data. -/
theorem data_append (a b : String) : (a ++ b).data = a.data ++ b.data := by
  cases a
  cases b
  rfl

/-- Appending a suffix preserves a string-prefix match. -/
theorem startswith_append (a d p : String) (h : startswith a p = true) :
    startswith (a ++ d) p = true := by
  unfold startswith at h ⊢
  rw [data_append]
  exact startswith_chars_append p.data a.data d.data h

/-- Every session-fault handler message carries one of the three prefixes. -/
theorem errMessage_session (e : NetErr) : isSessionErrMsg (errMessage e) = true := by
  cases e with
  | authErr d =>
    have h := startswith_append "Authentication failed: " d "Authentication failed:" (by decide)
    simp [isSessionErrMsg, errMessage, h]
  | timeoutErr d =>
    have h := startswith_append "Connection timeout: " d "Connection timeout:" (by decide)
    simp [isSessionErrMsg, errMessage, h]
  | otherErr d =>
    have h := startswith_append "Device connection error: " d "Device connection error:" (by decide)
    simp [isSessionErrMsg, errMessage, h]

/-- Session-fault messages are failure messages. -/
theorem errMessage_failure (e : NetErr) : failure_message (errMessage e) = true := by
  simp [failure_message, errMessage_session e]

/-- The missing-file message is a failure message. -/
theorem failure_message_notfound (p : String) :
    failure_message ("Configuration file not found: " ++ p) = true := by
  have h := startswith_append "Configuration file not found: " p
    "Configuration file not found:" (by decide)
  simp [failure_message, h]

/-- The malformed-JSON message is a failure message. -/
theorem failure_message_badjson (d : String) :
    failure_message ("Invalid JSON in configuration file: " ++ d) = true := by
  have h := startswith_append "Invalid JSON in configuration file: " d
    "Invalid JSON in configuration file:" (by decide)
  simp [failure_message, h]

/-- The generic-handler message is a failure message. -/
theorem failure_message_unexpected (d : String) :
    failure_message ("Unexpected error: " ++ d) = true := by
  have h := startswith_append "Unexpected error: " d "Unexpected error:" (by decide)
  simp [failure_message, h]

/-- The batch-success message is a success message, whatever the count. -/
theorem success_message_count (n : Nat) :
    success_message ("Successfully executed " ++ toString n ++ " commands") = true := by
  have h2 : startswith "Successfully executed " "Successfully executed" = true := by decide
  have h := startswith_append ("Successfully executed " ++ toString n) " commands"
    "Successfully executed" (startswith_append "Successfully executed " (toString n)
      "Successfully executed" h2)
  simp [success_message, h]

/-- A dispatch event is never the save event. -/
theorem dispatch_event_ne_saved (c : String) : dispatch_event c ≠ Event.savedConfig := by
  unfold dispatch_event
  split <;> simp

/-- A dispatch event is never the close event. -/
theorem dispatch_event_ne_disconnected (c : String) : dispatch_event c ≠ Event.disconnected := by
  unfold dispatch_event
  split <;> simp

/-- Dispatch counting distributes over trace concatenation. -/
theorem dispatch_count_append (a b : List Event) :
    dispatch_count (a ++ b) = dispatch_count a + dispatch_count b := by
  induction a with
  | nil => simp [dispatch_count]
  | cons e r ih =>
    cases e <;> simp [dispatch_count, ih] <;> omega

/-- A dispatch event at the head of a trace counts exactly once. -/
theorem dispatch_count_cons_dispatch (c : String) (r : List Event) :
    dispatch_count (dispatch_event c :: r) = dispatch_count r + 1 := by
  unfold dispatch_event
  split <;> simp [dispatch_count]

/-- Each command in a dispatch trace counts exactly once. -/
theorem dispatch_count_map (l : List String) :
    dispatch_count (l.map dispatch_event) = l.length := by
  induction l with
  | nil => rfl
  | cons c r ih => simp [List.map_cons, dispatch_count_cons_dispatch, ih]

/-- A string with a non-empty left part is non-empty. -/
theorem append_ne_empty (a b : String) (h : a.data ≠ []) : a ++ b ≠ "" := by
  intro hab
  have h2 : (a ++ b).data = ("" : String).data := by rw [hab]
  rw [data_append] at h2
  exact h (List.append_eq_nil.mp h2).1

/-- On a fault-free provider the command loop succeeds, produces exactly
the recomputed log of the non-blank commands, and dispatches exactly the
non-blank commands in order. -/
theorem run_commands_ok (net : Netmiko) (f : String → String) (g : List String → String)
    (hs : ∀ c, net.send_command c = Except.ok (f c))
    (hg : ∀ l, net.send_config_set l = Except.ok (g l)) :
    ∀ cmds, run_commands net cmds =
      (Except.ok (expected_lines f g cmds),
       (cmds.filter (fun c => !isBlank c)).map dispatch_event) := by
  intro cmds
  induction cmds with
  | nil => rfl
  | cons c rest ih =>
    by_cases hb : isBlank c = true
    · simp [run_commands, expected_lines, hb, ih]
    · simp only [Bool.not_eq_true] at hb
      by_cases hcc : is_config_command c = true
      · simp [run_commands, expected_lines, hb, hcc, hg [c], ih, dispatch_event]
      · simp only [Bool.not_eq_true] at hcc
        simp [run_commands, expected_lines, hb, hcc, hs c, ih, dispatch_event]

/-- On a fault-free provider the session phase of a non-test request yields
the full success record and the canonical trace: the non-blank dispatches in
order, then the save exactly when some command classifies as configuration,
then the close. -/
theorem run_session_all_ok (dev : DeviceConfig) (cmds : List String) (net : Netmiko)
    (ts : String) (f : String → String) (g : List String → String) (sv : String)
    (hc : net.connect = Except.ok ())
    (hs : ∀ c, net.send_command c = Except.ok (f c))
    (hg : ∀ l, net.send_config_set l = Except.ok (g l))
    (hsv : net.save_config = Except.ok sv)
    (hd : net.disconnect = Except.ok ()) :
    run_session dev cmds false net ts =
      ({ success := true,
         message := "Successfully executed " ++ toString cmds.length ++ " commands",
         output := joinLines (expected_lines f g cmds ++
           (if cmds.any is_config_command then ["Configuration saved:", sv] else [])),
         timestamp := ts, device_host := some (dev.host.getD "unknown") },
       ((cmds.filter (fun c => !isBlank c)).map dispatch_event) ++
         (if cmds.any is_config_command then [Event.savedConfig] else []) ++
         [Event.disconnected]) := by
  by_cases ha : cmds.any is_config_command = true
  · simp [run_session, hc, run_commands_ok net f g hs hg, ha, hsv, hd]
  · simp only [Bool.not_eq_true] at ha
    simp [run_session, hc, run_commands_ok net f g hs hg, ha, hd]

/-- Every branch of the session phase stamps the result with the
construction-time timestamp. -/
theorem run_session_timestamp (dev : DeviceConfig) (cmds : List String) (t : Bool)
    (net : Netmiko) (ts : String) :
    (run_session dev cmds t net ts).1.timestamp = ts := by
  unfold run_session
  repeat' split
  all_goals rfl

/-- Every result of the session phase either carries an empty output or is
marked successful: a failed session result never carries partial output. -/
theorem run_session_output_or (dev : DeviceConfig) (cmds : List String) (t : Bool)
    (net : Netmiko) (ts : String) :
    (run_session dev cmds t net ts).1.output = "" ∨
    (run_session dev cmds t net ts).1.success = true := by
  unfold run_session
  repeat' split
  all_goals first
  | exact Or.inl rfl
  | exact Or.inr rfl

/-- Message discipline of the session phase: a failed result carries a
failure message; a successful result carries a success message unless the
session-close step faulted, in which case the close fault's failure message
overwrites it while `success` stays true. -/
theorem run_session_msg_class (dev : DeviceConfig) (cmds : List String) (t : Bool)
    (net : Netmiko) (ts : String) :
    ((run_session dev cmds t net ts).1.success = true ∧
      success_message (run_session dev cmds t net ts).1.message = true) ∨
    ((run_session dev cmds t net ts).1.success = false ∧
      failure_message (run_session dev cmds t net ts).1.message = true) ∨
    ((run_session dev cmds t net ts).1.success = true ∧
      failure_message (run_session dev cmds t net ts).1.message = true ∧
      ∃ e, net.disconnect = Except.error e) := by
  unfold run_session
  split
  · next e _ => exact Or.inr (Or.inl ⟨rfl, errMessage_failure e⟩)
  · next =>
    split
    · split
      · next => exact Or.inl ⟨rfl, by simp [success_message]⟩
      · next e heq => exact Or.inr (Or.inr ⟨rfl, errMessage_failure e, e, heq⟩)
    · split
      · next e _ _ => exact Or.inr (Or.inl ⟨rfl, errMessage_failure e⟩)
      · next lines evs _ =>
        split
        · split
          · next e _ => exact Or.inr (Or.inl ⟨rfl, errMessage_failure e⟩)
          · next sv _ =>
            split
            · next => exact Or.inl ⟨rfl, success_message_count cmds.length⟩
            · next e heq => exact Or.inr (Or.inr ⟨rfl, errMessage_failure e, e, heq⟩)
        · split
          · next => exact Or.inl ⟨rfl, success_message_count cmds.length⟩
          · next e heq => exact Or.inr (Or.inr ⟨rfl, errMessage_failure e, e, heq⟩)

/-- The orchestrator either hands the request to the session phase (with
the parsed device, commands and effective test flag) or stops on a
file-level failure whose record is failed, outputless, timestamped, and
carries a failure message, with no provider events. -/
theorem exec_shape (load : ConfigLoad) (net : Netmiko) (ts : String) :
    (∃ dev cmds t, execute_netmiko_commands load net ts = run_session dev cmds t net ts) ∨
    ((execute_netmiko_commands load net ts).1.success = false ∧
     (execute_netmiko_commands load net ts).1.output = "" ∧
     (execute_netmiko_commands load net ts).1.timestamp = ts ∧
     failure_message (execute_netmiko_commands load net ts).1.message = true ∧
     (execute_netmiko_commands load net ts).2 = []) := by
  cases load with
  | fileMissing p d => exact Or.inr ⟨rfl, rfl, rfl, failure_message_notfound p, rfl⟩
  | jsonInvalid d => exact Or.inr ⟨rfl, rfl, rfl, failure_message_badjson d, rfl⟩
  | loadFault d => exact Or.inr ⟨rfl, rfl, rfl, failure_message_unexpected d, rfl⟩
  | loaded cfg =>
    cases hd : cfg.device with
    | none =>
      have he : execute_netmiko_commands (ConfigLoad.loaded cfg) net ts =
          (unexpected (keyErr "device") ts, []) := by
        simp only [execute_netmiko_commands, hd]
      rw [he]
      exact Or.inr ⟨rfl, rfl, rfl, failure_message_unexpected (keyErr "device"), rfl⟩
    | some dev =>
      cases hcm : cfg.commands with
      | none =>
        have he : execute_netmiko_commands (ConfigLoad.loaded cfg) net ts =
            (unexpected (keyErr "commands") ts, []) := by
          simp only [execute_netmiko_commands, hd, hcm]
        rw [he]
        exact Or.inr ⟨rfl, rfl, rfl, failure_message_unexpected (keyErr "commands"), rfl⟩
      | some cmds =>
        cases hh : dev.host with
        | none =>
          have he : execute_netmiko_commands (ConfigLoad.loaded cfg) net ts =
              (unexpected (keyErr "host") ts, []) := by
            simp only [execute_netmiko_commands, hd, hcm, hh]
          rw [he]
          exact Or.inr ⟨rfl, rfl, rfl, failure_message_unexpected (keyErr "host"), rfl⟩
        | some hst =>
          refine Or.inl ⟨dev, cmds, cfg.test_only.getD false, ?_⟩
          simp only [execute_netmiko_commands, hd, hcm, hh]

/-- Every orchestrator result carries the construction-time timestamp. -/
theorem exec_timestamp (load : ConfigLoad) (net : Netmiko) (ts : String) :
    (execute_netmiko_commands load net ts).1.timestamp = ts := by
  rcases exec_shape load net ts with ⟨dev, cmds, t, heq⟩ | h
  · rw [heq]
    exact run_session_timestamp dev cmds t net ts
  · exact h.2.2.1

/-- A failed orchestrator result never carries output. -/
theorem exec_output_empty (load : ConfigLoad) (net : Netmiko) (ts : String)
    (h : (execute_netmiko_commands load net ts).1.success = false) :
    (execute_netmiko_commands load net ts).1.output = "" := by
  rcases exec_shape load net ts with ⟨dev, cmds, t, heq⟩ | hf
  · rw [heq] at h ⊢
    rcases run_session_output_or dev cmds t net ts with h1 | h1
    · exact h1
    · rw [h] at h1
      cases h1
  · exact hf.2.1

/-- C2: the claim states that a successfully opened session is closed
exactly once on every exit path, in particular after a command-dispatch
failure that follows one successful command.  Evaluating the code on that
scenario (two commands, the second dispatch faulting) shows the close
operation is invoked zero times: the disconnect call sits after the success
path inside the guarded block, so a mid-batch fault skips it and the
session leaks. -/
theorem C2_close_skipped_on_midbatch_failure :
    (run_session dev_ok ["show version", "show fail"] false net_c2 "T").1.success = false ∧
    dispatch_count (run_session dev_ok ["show version", "show fail"] false net_c2 "T").2 = 2 ∧
    close_count (run_session dev_ok ["show version", "show fail"] false net_c2 "T").2 = 0 := by
  decide

/-- C8 counterexample: the validator accepts a descriptor whose host,
username and password are all the empty string, so acceptance does not
imply the non-emptiness the claim asserts; the code checks key presence
only. -/
theorem C8_counterexample_empty_host_accepted :
    validate_device_config
      { device_type := some "cisco_ios", host := some "", username := some "",
        password := some "" } = (true, "") := by
  decide

/-- C8 (amended): a descriptor is accepted exactly when all four required
fields are present (possibly as empty strings) and its device type is in
the supported set; every rejection carries a non-empty reason. -/
theorem C8_validator_amended (d : DeviceConfig) :
    ((validate_device_config d).1 = true ↔
      ((∃ dt, d.device_type = some dt ∧ supported_types.contains dt = true) ∧
        d.host.isSome = true ∧ d.username.isSome = true ∧ d.password.isSome = true)) ∧
    ((validate_device_config d).1 = false → (validate_device_config d).2 ≠ "") := by
  obtain ⟨dt, h, u, p⟩ := d
  cases dt with
  | none =>
    have he : validate_device_config { device_type := none, host := h, username := u, password := p } = (false, "Missing required field: device_type") := rfl
    rw [he]
    exact ⟨by simp, fun _ => by decide⟩
  | some dt =>
    cases h with
    | none =>
      have he : validate_device_config { device_type := some dt, host := none, username := u, password := p } = (false, "Missing required field: host") := rfl
      rw [he]
      exact ⟨by simp, fun _ => by decide⟩
    | some h =>
      cases u with
      | none =>
        have he : validate_device_config { device_type := some dt, host := some h, username := none, password := p } = (false, "Missing required field: username") := rfl
        rw [he]
        exact ⟨by simp, fun _ => by decide⟩
      | some u =>
        cases p with
        | none =>
          have he : validate_device_config { device_type := some dt, host := some h, username := some u, password := none } = (false, "Missing required field: password") := rfl
          rw [he]
          exact ⟨by simp, fun _ => by decide⟩
        | some p =>
          by_cases hct : supported_types.contains dt = true
          · have he : validate_device_config
                { device_type := some dt, host := some h, username := some u,
                  password := some p } = (true, "") := by
              simp only [validate_device_config]
              rw [if_pos hct]
            rw [he]
            constructor
            · constructor
              · intro _
                exact ⟨⟨dt, rfl, hct⟩, rfl, rfl, rfl⟩
              · intro _
                rfl
            · intro hfalse
              cases hfalse
          · have he : validate_device_config
                { device_type := some dt, host := some h, username := some u,
                  password := some p } = (false, "Unsupported device type: " ++ dt) := by
              simp only [validate_device_config]
              rw [if_neg hct]
            rw [he]
            constructor
            · constructor
              · intro hv
                cases hv
              · rintro ⟨⟨dt2, hdt2, hct2⟩, -, -, -⟩
                exfalso
                cases Option.some.inj hdt2
                exact hct hct2
            · intro _
              exact append_ne_empty "Unsupported device type: " dt (by decide)

/-- C8 witness: a supported descriptor is accepted; an unsupported device
type is rejected with a non-empty reason. -/
theorem C8_validator_amended_witness :
    (validate_device_config { device_type := some "cisco_ios", host := some "h", username := some "u", password := some "p" }).1 = true ∧
    (validate_device_config { device_type := some "windows", host := some "h", username := some "u", password := some "p" }).2 ≠ "" :=
  ⟨(C8_validator_amended { device_type := some "cisco_ios", host := some "h", username := some "u", password := some "p" }).1.mpr
      ⟨⟨"cisco_ios", rfl, by decide⟩, rfl, rfl, rfl⟩,
   (C8_validator_amended { device_type := some "windows", host := some "h", username := some "u", password := some "p" }).2 (by decide)⟩

/-- C9: with a request-file argument the process prints exactly one result
document and exits with 0 precisely when that document has success=true and
with 1 otherwise — covering the missing request file, malformed document,
failed validation and generic top-level fault paths, all of which still
print a success=false document; with no argument it prints usage only and
exits 1. -/
theorem C9_exit_code_mirrors_success (load : ConfigLoad) (net : Netmiko) (ts : String) :
    main false load net ts = (1, []) ∧
    ∃ d : ExecResult,
      (main true load net ts).2 = [d] ∧
      (main true load net ts).1 = (if d.success then 0 else 1) ∧
      ((main true load net ts).1 = 0 ↔ d.success = true) := by
  refine ⟨rfl, ?_⟩
  cases load with
  | fileMissing pth dd => exact ⟨scriptErr dd ts, rfl, rfl, by simp [main, scriptErr]⟩
  | jsonInvalid dd => exact ⟨scriptErr dd ts, rfl, rfl, by simp [main, scriptErr]⟩
  | loadFault dd => exact ⟨scriptErr dd ts, rfl, rfl, by simp [main, scriptErr]⟩
  | loaded cfg =>
    cases hv : validate_device_config (cfg.device.getD empty_device) with
    | mk ok msg =>
      cases ok with
      | false =>
        refine ⟨{ success := false, message := "Invalid device configuration: " ++ msg,
                  output := "", timestamp := ts, device_host := none }, ?_, ?_, ?_⟩
        · simp [main, hv]
        · simp [main, hv]
        · simp [main, hv]
      | true =>
        refine ⟨(execute_netmiko_commands (ConfigLoad.loaded cfg) net ts).1, ?_, ?_, ?_⟩
        · simp [main, hv]
        · simp [main, hv]
        · by_cases hs : (execute_netmiko_commands (ConfigLoad.loaded cfg) net ts).1.success = true
          · simp [main, hv, hs]
          · simp only [Bool.not_eq_true] at hs
            simp [main, hv, hs]

/-- C4: on the fully-successful non-test path the success message reports
the length of the original command list — blank entries included in the
count — while the dispatch trace and the output log are built from the
non-blank commands only. -/
theorem C4_success_count_counts_all_entries (dev : DeviceConfig) (cmds : List String)
    (net : Netmiko) (ts : String) (f : String → String) (g : List String → String)
    (sv : String)
    (hc : net.connect = Except.ok ())
    (hs : ∀ c, net.send_command c = Except.ok (f c))
    (hg : ∀ l, net.send_config_set l = Except.ok (g l))
    (hsv : net.save_config = Except.ok sv)
    (hd : net.disconnect = Except.ok ()) :
    (run_session dev cmds false net ts).1.success = true ∧
    (run_session dev cmds false net ts).1.message =
      "Successfully executed " ++ toString cmds.length ++ " commands" ∧
    dispatch_count (run_session dev cmds false net ts).2 =
      (cmds.filter (fun c => !isBlank c)).length ∧
    (run_session dev cmds false net ts).1.output =
      joinLines (expected_lines f g cmds ++
        (if cmds.any is_config_command then ["Configuration saved:", sv] else [])) := by
  have h := run_session_all_ok dev cmds net ts f g sv hc hs hg hsv hd
  rw [h]
  refine ⟨rfl, rfl, ?_, rfl⟩
  rw [dispatch_count_append, dispatch_count_append, dispatch_count_map]
  cases cmds.any is_config_command <;> simp [dispatch_count]

/-- C4 witness at a three-command batch with one blank entry. -/
theorem C4_success_count_counts_all_entries_witness :
    (run_session dev_ok ["show version", " ", "configure terminal"] false net_ok "T0").1.success = true ∧
    (run_session dev_ok ["show version", " ", "configure terminal"] false net_ok "T0").1.message =
      "Successfully executed " ++ toString (["show version", " ", "configure terminal"].length) ++ " commands" ∧
    dispatch_count (run_session dev_ok ["show version", " ", "configure terminal"] false net_ok "T0").2 =
      (["show version", " ", "configure terminal"].filter (fun c => !isBlank c)).length ∧
    (run_session dev_ok ["show version", " ", "configure terminal"] false net_ok "T0").1.output =
      joinLines (expected_lines f_resp g_resp ["show version", " ", "configure terminal"] ++
        (if ["show version", " ", "configure terminal"].any is_config_command then
          ["Configuration saved:", "SAVED"] else [])) :=
  C4_success_count_counts_all_entries dev_ok ["show version", " ", "configure terminal"]
    net_ok "T0" f_resp g_resp "SAVED" rfl (fun _ => rfl) (fun _ => rfl) rfl rfl

/-- C5: on the fully-successful non-test path the trace is exactly the
non-blank dispatches, then — if and only if some command classifies as
configuration — one save, then the close; the output log ends with the
save block exactly in that case, and a batch with no configuration command
never saves. -/
theorem C5_save_iff_configuration (dev : DeviceConfig) (cmds : List String)
    (net : Netmiko) (ts : String) (f : String → String) (g : List String → String)
    (sv : String)
    (hc : net.connect = Except.ok ())
    (hs : ∀ c, net.send_command c = Except.ok (f c))
    (hg : ∀ l, net.send_config_set l = Except.ok (g l))
    (hsv : net.save_config = Except.ok sv)
    (hd : net.disconnect = Except.ok ()) :
    (run_session dev cmds false net ts).2 =
      ((cmds.filter (fun c => !isBlank c)).map dispatch_event) ++
        (if cmds.any is_config_command then [Event.savedConfig] else []) ++
        [Event.disconnected] ∧
    (Event.savedConfig ∈ (run_session dev cmds false net ts).2 ↔
      cmds.any is_config_command = true) ∧
    (run_session dev cmds false net ts).1.output =
      joinLines (expected_lines f g cmds ++
        (if cmds.any is_config_command then ["Configuration saved:", sv] else [])) := by
  have h := run_session_all_ok dev cmds net ts f g sv hc hs hg hsv hd
  rw [h]
  refine ⟨rfl, ?_, rfl⟩
  constructor
  · intro hmem
    by_contra hna
    simp only [Bool.not_eq_true] at hna
    simp only [hna, if_neg Bool.false_ne_true, List.append_nil, List.mem_append,
      List.mem_map, List.mem_singleton] at hmem
    rcases hmem with ⟨a, -, ha⟩ | hbad
    · exact dispatch_event_ne_saved a ha
    · cases hbad
  · intro ha
    simp [ha, List.mem_append]

/-- C5 witness at a mixed batch containing one configuration command. -/
theorem C5_save_iff_configuration_witness :
    (run_session dev_ok ["show version", "configure terminal"] false net_ok "T1").2 =
      ((["show version", "configure terminal"].filter (fun c => !isBlank c)).map dispatch_event) ++
        (if ["show version", "configure terminal"].any is_config_command then
          [Event.savedConfig] else []) ++
        [Event.disconnected] ∧
    (Event.savedConfig ∈ (run_session dev_ok ["show version", "configure terminal"] false net_ok "T1").2 ↔
      ["show version", "configure terminal"].any is_config_command = true) ∧
    (run_session dev_ok ["show version", "configure terminal"] false net_ok "T1").1.output =
      joinLines (expected_lines f_resp g_resp ["show version", "configure terminal"] ++
        (if ["show version", "configure terminal"].any is_config_command then
          ["Configuration saved:", "SAVED"] else [])) :=
  C5_save_iff_configuration dev_ok ["show version", "configure terminal"] net_ok "T1"
    f_resp g_resp "SAVED" rfl (fun _ => rfl) (fun _ => rfl) rfl rfl

/-- C6: a command classifies as configuration exactly when its trimmed text
literally starts with "configure" or "config" (case-sensitive), and a
non-blank command is dispatched as a one-element configuration batch in
that case and as a direct command otherwise. -/
theorem C6_classifier_dispatch_channel (net : Netmiko) (f : String → String)
    (g : List String → String) (c : String)
    (hs : ∀ x, net.send_command x = Except.ok (f x))
    (hg : ∀ l, net.send_config_set l = Except.ok (g l))
    (hnb : isBlank c = false) :
    is_config_command c =
      (startswith (strTrim c) "configure" || startswith (strTrim c) "config") ∧
    run_commands net [c] =
      (Except.ok [("Command: " ++ c), (if is_config_command c then g [c] else f c), separator],
       [if is_config_command c then Event.sentConfigSet [c] else Event.sentCommand c]) := by
  refine ⟨rfl, ?_⟩
  have h := run_commands_ok net f g hs hg [c]
  rw [h]
  simp [expected_lines, hnb, dispatch_event]

/-- C6 witness at the command "configure terminal". -/
theorem C6_classifier_dispatch_channel_witness :
    is_config_command "configure terminal" =
      (startswith (strTrim "configure terminal") "configure" ||
        startswith (strTrim "configure terminal") "config") ∧
    run_commands net_ok ["configure terminal"] =
      (Except.ok [("Command: " ++ "configure terminal"),
        (if is_config_command "configure terminal" then g_resp ["configure terminal"]
         else f_resp "configure terminal"), separator],
       [if is_config_command "configure terminal" then Event.sentConfigSet ["configure terminal"]
        else Event.sentCommand "configure terminal"]) :=
  C6_classifier_dispatch_channel net_ok f_resp g_resp "configure terminal"
    (fun _ => rfl) (fun _ => rfl) (by decide)

/-- C10: when the command loop faults, or the loop succeeds but the
save-configuration step faults on a batch containing a configuration
command, the result is failed and its output field is empty: output
accumulated from earlier successful commands is discarded, never partially
returned. -/
theorem C10_failed_batch_discards_output (dev : DeviceConfig) (cmds : List String)
    (net : Netmiko) (ts : String) (e : NetErr)
    (hc : net.connect = Except.ok ())
    (hfault : (run_commands net cmds).1 = Except.error e ∨
      ((∃ lines, (run_commands net cmds).1 = Except.ok lines) ∧
        cmds.any is_config_command = true ∧ net.save_config = Except.error e)) :
    (run_session dev cmds false net ts).1.success = false ∧
    (run_session dev cmds false net ts).1.output = "" := by
  cases hrc : run_commands net cmds with
  | mk res evs =>
    rcases hfault with hf | ⟨⟨lines, hlines⟩, hany, hsv⟩
    · rw [hrc] at hf
      have hres : res = Except.error e := hf
      subst hres
      simp [run_session, hc, hrc]
    · rw [hrc] at hlines
      have hres : res = Except.ok lines := hlines
      subst hres
      simp [run_session, hc, hrc, hany, hsv]

/-- C10 witness: a dispatch fault after one successful command. -/
theorem C10_failed_batch_discards_output_witness :
    (run_session dev_ok ["show version", "show fail"] false net_c2 "T2").1.success = false ∧
    (run_session dev_ok ["show version", "show fail"] false net_c2 "T2").1.output = "" :=
  C10_failed_batch_discards_output dev_ok ["show version", "show fail"] net_c2 "T2"
    (NetErr.otherErr "dispatch failed") rfl (Or.inl (by rfl))

/-- C1 counterexample: a run whose only provider fault is at session close
returns success=true while the message is the close fault's failure
message, so the record satisfies neither "success=true with a success
message" nor "success=false with a failure message": the claimed dichotomy
fails. -/
theorem C1_counterexample_close_fault_breaks_dichotomy :
    ¬ (((execute_netmiko_commands load_show net_closefail "T").1.success = true ∧
          success_message (execute_netmiko_commands load_show net_closefail "T").1.message = true) ∨
       ((execute_netmiko_commands load_show net_closefail "T").1.success = false ∧
          failure_message (execute_netmiko_commands load_show net_closefail "T").1.message = true)) := by
  decide

/-- C1 (amended): every input yields a record stamped with the
construction-time timestamp, and the record is either a success with a
success message, a failure with a failure message, or — only when the
session-close step faulted — a success whose message is that fault's
failure message.  Totality of `execute_netmiko_commands` is the modelled
form of "no exception ever propagates". -/
theorem C1_result_record_amended (load : ConfigLoad) (net : Netmiko) (ts : String) :
    (execute_netmiko_commands load net ts).1.timestamp = ts ∧
    (((execute_netmiko_commands load net ts).1.success = true ∧
        success_message (execute_netmiko_commands load net ts).1.message = true) ∨
     ((execute_netmiko_commands load net ts).1.success = false ∧
        failure_message (execute_netmiko_commands load net ts).1.message = true) ∨
     ((execute_netmiko_commands load net ts).1.success = true ∧
        failure_message (execute_netmiko_commands load net ts).1.message = true ∧
        ∃ e, net.disconnect = Except.error e)) := by
  refine ⟨exec_timestamp load net ts, ?_⟩
  rcases exec_shape load net ts with ⟨dev, cmds, t, heq⟩ | hf
  · rw [heq]
    exact run_session_msg_class dev cmds t net ts
  · exact Or.inr (Or.inl ⟨hf.1, hf.2.2.2.1⟩)

/-- C3 counterexample: a close fault after a successfully dispatched
command yields a "Device connection error:" message on a result with
success=true, non-empty output, and one command attempted — so the three
prefixes are not produced only by open-step failures, nor always with
success=false and empty output. -/
theorem C3_counterexample_prefix_not_only_open :
    isSessionErrMsg (run_session dev_ok ["show version"] false net_closefail "T").1.message = true ∧
    (run_session dev_ok ["show version"] false net_closefail "T").1.success = true ∧
    (run_session dev_ok ["show version"] false net_closefail "T").1.output ≠ "" ∧
    dispatch_count (run_session dev_ok ["show version"] false net_closefail "T").2 = 1 := by
  decide

/-- C3 (amended): when the session-open step fails, the result is exactly
the fault's prefixed message with success=false and empty output, no
command is attempted, and the close operation is never invoked; the three
prefixed messages can however also arise from provider faults at dispatch,
save, or close. -/
theorem C3_open_failure_amended (dev : DeviceConfig) (cmds : List String) (t : Bool)
    (net : Netmiko) (ts : String) (e : NetErr)
    (hc : net.connect = Except.error e) :
    run_session dev cmds t net ts =
      ({ success := false, message := errMessage e, output := "",
         timestamp := ts, device_host := some (dev.host.getD "unknown") }, []) ∧
    isSessionErrMsg (run_session dev cmds t net ts).1.message = true ∧
    dispatch_count (run_session dev cmds t net ts).2 = 0 ∧
    close_count (run_session dev cmds t net ts).2 = 0 := by
  have h : run_session dev cmds t net ts =
      ({ success := false, message := errMessage e, output := "",
         timestamp := ts, device_host := some (dev.host.getD "unknown") }, []) := by
    simp [run_session, hc]
  rw [h]
  exact ⟨rfl, errMessage_session e, rfl, rfl⟩

/-- C3 witness at an authentication fault of the open step. -/
theorem C3_open_failure_amended_witness :
    run_session dev_ok ["show version"] false net_connfail "T3" =
      ({ success := false, message := errMessage (NetErr.authErr "bad credentials"), output := "",
         timestamp := "T3", device_host := some (dev_ok.host.getD "unknown") }, []) ∧
    isSessionErrMsg (run_session dev_ok ["show version"] false net_connfail "T3").1.message = true ∧
    dispatch_count (run_session dev_ok ["show version"] false net_connfail "T3").2 = 0 ∧
    close_count (run_session dev_ok ["show version"] false net_connfail "T3").2 = 0 :=
  C3_open_failure_amended dev_ok ["show version"] false net_connfail "T3"
    (NetErr.authErr "bad credentials") rfl

/-- C7 counterexample: on a test-only request whose open succeeds but whose
close faults, the message is not "Connection test successful", so the
result is not exactly the fixed triple the claim states. -/
theorem C7_counterexample_close_fault_changes_message :
    net_closefail.connect = Except.ok () ∧
    (run_session dev_ok [] true net_closefail "T").1.message ≠ "Connection test successful" :=
  ⟨rfl, by decide⟩

/-- C7 (amended): on a test-only request whose open succeeds, zero commands
are dispatched, the session is closed once, success=true, output is the
fixed text, and the message is "Connection test successful" provided the
close also succeeds (a close fault overwrites the message only). -/
theorem C7_test_only_amended (dev : DeviceConfig) (cmds : List String) (net : Netmiko)
    (ts : String) (hc : net.connect = Except.ok ()) :
    dispatch_count (run_session dev cmds true net ts).2 = 0 ∧
    close_count (run_session dev cmds true net ts).2 = 1 ∧
    (run_session dev cmds true net ts).1.success = true ∧
    (run_session dev cmds true net ts).1.output = "Connection established successfully" ∧
    (net.disconnect = Except.ok () →
      (run_session dev cmds true net ts).1.message = "Connection test successful") := by
  cases hd : net.disconnect with
  | ok u =>
    have h : run_session dev cmds true net ts =
        ({ success := true, message := "Connection test successful",
           output := "Connection established successfully",
           timestamp := ts, device_host := some (dev.host.getD "unknown") },
         [Event.disconnected]) := by
      simp [run_session, hc, hd]
    rw [h]
    exact ⟨rfl, rfl, rfl, rfl, fun _ => rfl⟩
  | error e =>
    have h : run_session dev cmds true net ts =
        ({ success := true, message := errMessage e,
           output := "Connection established successfully",
           timestamp := ts, device_host := some (dev.host.getD "unknown") },
         [Event.disconnected]) := by
      simp [run_session, hc, hd]
    rw [h]
    refine ⟨rfl, rfl, rfl, rfl, fun hcontra => ?_⟩
    simp at hcontra

/-- C7 witness on a fault-free provider. -/
theorem C7_test_only_amended_witness :
    dispatch_count (run_session dev_ok ["show version"] true net_ok "T4").2 = 0 ∧
    close_count (run_session dev_ok ["show version"] true net_ok "T4").2 = 1 ∧
    (run_session dev_ok ["show version"] true net_ok "T4").1.success = true ∧
    (run_session dev_ok ["show version"] true net_ok "T4").1.output =
      "Connection established successfully" ∧
    (net_ok.disconnect = Except.ok () →
      (run_session dev_ok ["show version"] true net_ok "T4").1.message =
        "Connection test successful") :=
  C7_test_only_amended dev_ok ["show version"] net_ok "T4" rfl

end NetmikoExec
